import Mathlib

/-
  Shallow embedding of the banking-dispute chat backend: the dialogue state
  machine of src/banking-dispute-backend/chat_handler.py together with the
  session/dispute store of database.py, the dispute creation handoff of
  dispute_service.py, the data model of models.py and the constants of
  constants.py.  Python dicts are modelled as association lists with string
  keys, Python floats as rationals, and the external effects (the Ollama AI
  backend, uuid4, datetime.now, and the fallibility of the dispute-record
  store write) as an explicit environment record threaded through the
  handlers.  Each definition mirrors the source function of the same name.
-/

namespace BankingDispute

/-! ### String primitives modelling the Python string operations used -/

/-- Python `needle in hay` (substring test) on lists of characters. -/
def listContainsSub (needle : List Char) : List Char → Bool
  | [] => needle.isPrefixOf []
  | c :: t => needle.isPrefixOf (c :: t) || listContainsSub needle t

/-- Python `needle in hay` for strings. -/
def strContains (hay needle : String) : Bool :=
  listContainsSub needle.toList hay.toList

/-- Python `str.lower()` (the messages handled are ASCII). -/
def strLower (s : String) : String := String.mk (s.toList.map Char.toLower)

/-- Python `str.upper()`. -/
def strUpper (s : String) : String := String.mk (s.toList.map Char.toUpper)

/-- Whitespace characters stripped by Python `str.strip()`. -/
def isStripChar (c : Char) : Bool :=
  c == ' ' || c == '\t' || c == '\n' || c == '\r'

/-- Python `str.strip()`. -/
def strTrim (s : String) : String :=
  String.mk (((s.toList.dropWhile isStripChar).reverse.dropWhile isStripChar).reverse)

/-- Python `str.startswith(pre)`. -/
def strStartsWith (s pre : String) : Bool := pre.toList.isPrefixOf s.toList

/-- Python `str.title()` for one character, given whether the previous
character was alphabetic. -/
def pyTitleAux : Bool → List Char → List Char
  | _, [] => []
  | prevAlpha, c :: t =>
    (if c.isAlpha then (if prevAlpha then c.toLower else c.toUpper) else c) ::
      pyTitleAux c.isAlpha t

/-- Python `str.title()`. -/
def pyTitle (s : String) : String := String.mk (pyTitleAux false s.toList)

/-- Python `s.replace(underscore, space)` as used on status strings. -/
def underscoreToSpace (s : String) : String :=
  String.mk (s.toList.map (fun c => if c == '_' then ' ' else c))

/-- Python `s.split(T)[0]`: the prefix of `s` before the first letter T. -/
def splitBeforeT (s : String) : String :=
  String.mk (s.toList.takeWhile (fun c => c ≠ 'T'))

/-! ### Association lists modelling Python dicts with string keys -/

/-- Dict lookup: `d.get(k)`. -/
def alistGet {α : Type} : List (String × α) → String → Option α
  | [], _ => none
  | p :: t, k => if p.1 == k then some p.2 else alistGet t k

/-- Dict write: `d[k] = v` (replaces the binding of `k` or appends it). -/
def alistInsert {α : Type} (l : List (String × α)) (k : String) (v : α) :
    List (String × α) :=
  match l with
  | [] => [(k, v)]
  | p :: t => if p.1 == k then (k, v) :: t else p :: alistInsert t k v

/-- Dict deletion: `del d[k]` (removes the binding of `k` if present). -/
def alistErase {α : Type} (l : List (String × α)) (k : String) :
    List (String × α) :=
  match l with
  | [] => []
  | p :: t => if p.1 == k then t else p :: alistErase t k

/-! ### constants.py -/

def BANKS : List String :=
  ["State Bank of India", "HDFC Bank", "ICICI Bank", "Axis Bank",
   "Punjab National Bank", "Bank of Baroda", "Canara Bank", "Other"]

def BANK_HELPLINES : List (String × String) :=
  [("State Bank of India", "1800 1111 109"),
   ("HDFC Bank", "1800 2611 232"),
   ("ICICI Bank", "1800 2000 888"),
   ("Axis Bank", "1800 4196 4444"),
   ("Punjab National Bank", "1800 2222 244"),
   ("Bank of Baroda", "1800 2580 244"),
   ("Canara Bank", "1800 4250 0018")]

inductive DisputeType
  | DOUBLE_DEBIT
  | UNAUTHORIZED
  | MISSING_REFUND
  | WRONG_AMOUNT
  | FAILED_TRANSACTION
  | ATM_DISPUTE
  | MERCHANT_FRAUD
  | CARD_SKIMMING
  | OTHER
deriving DecidableEq

/-- Display string of each dispute type (the enum member values). -/
def DisputeType.value : DisputeType → String
  | .DOUBLE_DEBIT => "Double Debit / Duplicate Charge"
  | .UNAUTHORIZED => "Unauthorized Transaction"
  | .MISSING_REFUND => "Missing Refund"
  | .WRONG_AMOUNT => "Wrong Balance/Amount"
  | .FAILED_TRANSACTION => "Failed Transaction"
  | .ATM_DISPUTE => "ATM Dispute"
  | .MERCHANT_FRAUD => "Merchant Fraud"
  | .CARD_SKIMMING => "Card Skimming"
  | .OTHER => "Other"

/-- Iteration order of the DisputeType enum. -/
def disputeTypeList : List DisputeType :=
  [.DOUBLE_DEBIT, .UNAUTHORIZED, .MISSING_REFUND, .WRONG_AMOUNT,
   .FAILED_TRANSACTION, .ATM_DISPUTE, .MERCHANT_FRAUD, .CARD_SKIMMING, .OTHER]

inductive Priority
  | low
  | medium
  | high
deriving DecidableEq

def Priority.value : Priority → String
  | .low => "low"
  | .medium => "medium"
  | .high => "high"

def MAIN_MENU_OPTIONS : List String :=
  ["Report a Dispute", "Track Existing Dispute", "Get Guidance", "Emergency Help"]

def GUIDANCE_TOPICS : List String :=
  ["Unauthorized Transaction", "Duplicate Charge", "ATM Dispute", "Merchant Issues"]

/-! ### models.py -/

/-- Partially filled dispute form held inside a chat session (the
`dispute_form` dict, and the pydantic DisputeForm whose fields are all
Optional).  The `type` field stores the enum member whose `value` string the
source writes into the dict. -/
structure DisputeForm where
  type : Option DisputeType := none
  bank : Option String := none
  amount : Option Rat := none
  date : Option String := none
  description : Option String := none
  cardlastfour : Option String := none
deriving DecidableEq

/-- Persisted dispute record (models.DisputeData). -/
structure DisputeData where
  id : String
  type : DisputeType
  amount : Rat
  date : String
  description : String
  status : String
  priority : Priority
  bank : String
  cardlastfour : String
  createdAt : String
deriving DecidableEq

/-- Chat session record held in Database.chat_sessions. -/
structure Session where
  step : String
  dispute_form : DisputeForm
  context : List (String × String)
deriving DecidableEq

/-- Inbound chat request (models.ChatMessage). -/
structure ChatMessage where
  message : String
  session_id : Option String := none
  context : List (String × String) := []

/-- Outbound chat response (models.ChatResponse). -/
structure ChatResponse where
  response : String
  options : Option (List String) := none
  action : Option String := none
  dispute_id : Option String := none
  context : List (String × String) := []
deriving DecidableEq

/-- One guidance entry returned by MCPServer.get_guidance_steps. -/
structure GuidanceStep where
  step : String
  action : String
  urgency : String
  timeline : String
deriving DecidableEq

/-! ### database.py: the in-memory stores -/

/-- The two in-memory maps of the Database object consumed by the chat flow. -/
structure Db where
  disputes : List (String × DisputeData)
  chat_sessions : List (String × Session)
deriving DecidableEq

def get_session (st : Db) (sid : String) : Option Session :=
  alistGet st.chat_sessions sid

/-- Database.create_session: stores and returns a fresh greeting session. -/
def create_session (st : Db) (sid : String) : Session × Db :=
  let s : Session := { step := "greeting", dispute_form := {}, context := [] }
  (s, { st with chat_sessions := alistInsert st.chat_sessions sid s })

def update_session (st : Db) (sid : String) (s : Session) : Db :=
  { st with chat_sessions := alistInsert st.chat_sessions sid s }

def delete_session (st : Db) (sid : String) : Db :=
  { st with chat_sessions := alistErase st.chat_sessions sid }

def db_create_dispute (st : Db) (d : DisputeData) : Db :=
  { st with disputes := alistInsert st.disputes d.id d }

def get_dispute (st : Db) (did : String) : Option DisputeData :=
  alistGet st.disputes did

/-! ### External effects

The handlers call four effectful collaborators: the Ollama AI backend, the
uuid4 generator behind the dispute-id default, datetime.now behind createdAt,
and the dispute-record store write (whose possible failure the card_info
handler catches).  They are modelled as an explicit environment. -/

structure Env where
  /-- OllamaService.get_ai_response as a function of message and context. -/
  ai : String → List (String × String) → String
  /-- Hex digest of the uuid4 drawn by the DisputeData id default factory. -/
  uuidHex : String
  /-- datetime.now().isoformat() at creation time. -/
  nowIso : String
  /-- Whether the dispute-record store write succeeds (persistence oracle). -/
  persistOk : Bool
  /-- uuid4 drawn when the request carries no session id. -/
  freshSid : String

/-! ### Field extractors -/

/-- Value of a list of decimal digit characters. -/
def digitsVal (ds : List Char) : Nat :=
  ds.foldl (fun a c => 10 * a + (c.toNat - 48)) 0

/-- Leading digit run of the first number in the message: the regex
`[\d,]+\.?\d*` is applied by re.search to the message with every comma
removed, so a match starts at the first digit and its integer part is the
maximal digit run from there. -/
def findFirstNumber : List Char → Option (List Char × List Char)
  | [] => none
  | c :: t =>
    if c.isDigit then some ((c :: t).takeWhile Char.isDigit, (c :: t).dropWhile Char.isDigit)
    else findFirstNumber t

/-- Numeric value of the amount token: integer digits, and, when the run is
followed by a dot, the maximal digit run after the dot as a fraction
(`float` of the matched text). -/
def amountValue (ip fp : List Char) : Rat :=
  mkRat (Int.ofNat (digitsVal ip * 10 ^ fp.length + digitsVal fp)) (10 ^ fp.length)

/-- Amount extractor of _handle_amount_input:
`re.search(r'[\d,]+\.?\d*', message.replace(',', ''))` followed by `float`
on the matched text; none when the message holds no digit. -/
def extract_amount (message : String) : Option Rat :=
  match findFirstNumber (message.toList.filter (fun c => c ≠ ',')) with
  | none => none
  | some (ds, rest) =>
    match rest with
    | '.' :: rest2 => some (amountValue ds (rest2.takeWhile Char.isDigit))
    | _ => some (amountValue ds [])

/-! ### dispute_service.py -/

/-- Fraud dispute types that are always high priority. -/
def fraud_types : List DisputeType :=
  [.UNAUTHORIZED, .MERCHANT_FRAUD, .CARD_SKIMMING]

/-- Python `dispute_form.type in l` where type may be None. -/
def typeIn (f : DisputeForm) (l : List DisputeType) : Bool :=
  match f.type with
  | some t => l.contains t
  | none => false

/-- Python truthiness of the optional float amount:
`if dispute_form.amount:` is false for None and for 0.0. -/
def pyFloatTruthy (a : Option Rat) : Bool :=
  match a with
  | some x => decide (x ≠ 0)
  | none => false

/-- DisputeService._determine_priority, line for line: the amount-based
rules run only when the amount field is truthy, and their else branch
returns LOW, so the type-based MEDIUM default is reached only when the
amount is absent or zero. -/
def determine_priority (f : DisputeForm) : Priority :=
  if typeIn f fraud_types then Priority.high
  else if pyFloatTruthy f.amount then
    match f.amount with
    | some a =>
      if a > 50000 then Priority.high
      else if a > 10000 then Priority.medium
      else Priority.low
    | none => Priority.low
  else if typeIn f [.ATM_DISPUTE, .FAILED_TRANSACTION] then Priority.medium
  else Priority.low

/-- DisputeService._get_estimated_resolution (the dispute type comes from
the Optional form field). -/
def get_estimated_resolution (p : Priority) (t : Option DisputeType) : String :=
  if t = some DisputeType.ATM_DISPUTE then "2-3 business days"
  else if p = Priority.high then "3-5 business days"
  else if p = Priority.medium then "5-7 business days"
  else "7-10 business days"

/-- MCPServer.get_guidance_steps: static table keyed by the type value
string, falling back to the Unauthorized Transaction entry. -/
def unauthorized_guidance : List GuidanceStep :=
  [{ step := "1", action := "Block your card immediately", urgency := "critical", timeline := "Immediately" },
   { step := "2", action := "Call bank helpline", urgency := "critical", timeline := "Within 2 hours" },
   { step := "3", action := "File police complaint", urgency := "high", timeline := "Within 24 hours" },
   { step := "4", action := "Submit written dispute to bank", urgency := "high", timeline := "Within 3 days" },
   { step := "5", action := "Follow up regularly", urgency := "medium", timeline := "Every 2-3 days" }]

def double_debit_guidance : List GuidanceStep :=
  [{ step := "1", action := "Contact merchant first", urgency := "medium", timeline := "Within 2 days" },
   { step := "2", action := "Gather transaction proofs", urgency := "high", timeline := "Immediately" },
   { step := "3", action := "Wait for merchant response", urgency := "low", timeline := "7 days" },
   { step := "4", action := "File bank dispute if no merchant response", urgency := "medium", timeline := "After 7 days" },
   { step := "5", action := "Submit all documentation", urgency := "high", timeline := "With dispute filing" }]

def atm_guidance : List GuidanceStep :=
  [{ step := "1", action := "Keep ATM receipt", urgency := "critical", timeline := "Immediately" },
   { step := "2", action := "Note ATM location and time", urgency := "high", timeline := "Immediately" },
   { step := "3", action := "Contact bank immediately", urgency := "critical", timeline := "Within 2 hours" },
   { step := "4", action := "File written complaint", urgency := "high", timeline := "Within 24 hours" },
   { step := "5", action := "Follow up for resolution", urgency := "medium", timeline := "After 2-3 days" }]

def missing_refund_guidance : List GuidanceStep :=
  [{ step := "1", action := "Check refund timeline with merchant", urgency := "medium", timeline := "Immediately" },
   { step := "2", action := "Contact merchant for refund status", urgency := "medium", timeline := "After expected date" },
   { step := "3", action := "Get refund confirmation from merchant", urgency := "high", timeline := "Within 3 days" },
   { step := "4", action := "Contact bank if refund processed", urgency := "high", timeline := "After confirmation" },
   { step := "5", action := "File dispute with bank", urgency := "medium", timeline := "If no resolution in 15 days" }]

def get_guidance_steps (dispute_type : String) : List GuidanceStep :=
  if dispute_type = "Unauthorized Transaction" then unauthorized_guidance
  else if dispute_type = "Double Debit / Duplicate Charge" then double_debit_guidance
  else if dispute_type = "ATM Dispute" then atm_guidance
  else if dispute_type = "Missing Refund" then missing_refund_guidance
  else unauthorized_guidance

/-- Dispute id default factory of models.DisputeData:
`DSP` followed by `uuid.uuid4().hex[:8].upper()`. -/
def mk_dispute_id (uuidHex : String) : String :=
  "DSP" ++ strUpper (String.mk (uuidHex.toList.take 8))

/-- Result dict returned by DisputeService.create_dispute. -/
structure CreateResult where
  dispute_id : String
  status : String
  priority : Priority
  next_steps : List GuidanceStep
  estimated_resolution : String
  bank_contact : String
  created_at : String
deriving DecidableEq

/-- DisputeService.create_dispute.  The pydantic DisputeData construction
rejects a form whose required fields are missing (all its non-defaulted
fields), and the store write is the fallible external effect: when it fails
the surrounding try re-raises, which the model renders as Except.error.
The guidance lookup, resolution estimate and helpline lookup after the
write are pure and total. -/
def service_create_dispute (env : Env) (f : DisputeForm) (st : Db) :
    Except Unit (CreateResult × Db) :=
  match f.type, f.amount, f.date, f.description, f.bank, f.cardlastfour with
  | some t, some a, some d, some desc, some b, some c =>
    let priority := determine_priority f
    let data : DisputeData :=
      { id := mk_dispute_id env.uuidHex, type := t, amount := a, date := d,
        description := desc, status := "submitted", priority := priority,
        bank := b, cardlastfour := c, createdAt := env.nowIso }
    if env.persistOk then
      let st1 := db_create_dispute st data
      Except.ok
        ({ dispute_id := data.id, status := "created", priority := priority,
           next_steps := get_guidance_steps t.value,
           estimated_resolution := get_estimated_resolution priority f.type,
           bank_contact := (alistGet BANK_HELPLINES b).getD "Contact your bank directly",
           created_at := data.createdAt }, st1)
    else Except.error ()
  | _, _, _, _, _, _ => Except.error ()

/-! ### Presentation helpers used inside response texts -/

/-- Digits of `n` in base 10, least significant last (Nat.toDigits). -/
def natDecimal (n : Nat) : List Char := Nat.toDigits 10 n

/-- Thousands grouping over a reversed digit list: a comma goes after every
third digit when more digits remain. -/
def commaGroupRev : List Char → Nat → List Char
  | [], _ => []
  | c :: t, k =>
    if k % 3 == 2 && !t.isEmpty then c :: ',' :: commaGroupRev t (k + 1)
    else c :: commaGroupRev t (k + 1)

/-- Python format spec `,.2f` for the nonnegative amounts produced by the
extractor (ties of the binary float display are abstracted as round half
up; no response text containing it is inspected by a theorem). -/
def formatComma2f (q : Rat) : String :=
  let cents : Int := round (q * 100)
  let n : Nat := cents.toNat
  let ip := n / 100
  let fp := n % 100
  let ipChars := (commaGroupRev (natDecimal ip).reverse 0).reverse
  let fpChars := [Char.ofNat (48 + fp / 10), Char.ofNat (48 + fp % 10)]
  String.mk (ipChars ++ '.' :: fpChars)

/-! ### chat_handler.py: the step handlers -/

/-- ChatHandler._handle_greeting.  It returns the menu (with the target
step only inside the response context) or delegates to the AI; it never
writes to the session store. -/
def handle_greeting (env : Env) (message sid : String)
    (ctx : List (String × String)) (st : Db) : ChatResponse × Db :=
  if ["hello", "hi", "help", "start"].any (fun w => strContains message w) then
    ({ response := "Hello! I\x27m your Banking Dispute Assistant. I can help you resolve banking disputes quickly and effectively. How can I assist you today?",
       options := some MAIN_MENU_OPTIONS,
       context := [("session_id", sid), ("step", "main_menu")] }, st)
  else
    ({ response := env.ai message ctx,
       options := some MAIN_MENU_OPTIONS,
       context := [("session_id", sid)] }, st)

/-- ChatHandler._handle_main_menu. -/
def handle_main_menu (env : Env) (message sid : String) (session : Session)
    (st : Db) : ChatResponse × Db :=
  if strContains message "report a dispute" then
    let session1 := { session with step := "dispute_type" }
    ({ response := "I\x27ll help you report a dispute. What type of issue are you experiencing?",
       options := some (disputeTypeList.map DisputeType.value),
       context := [("session_id", sid)] }, update_session st sid session1)
  else handle_greeting env message sid [] st

/-- ChatHandler._handle_track_request. -/
def handle_track_request (sid : String) (session : Session) (st : Db) :
    ChatResponse × Db :=
  let session1 := { session with step := "track_dispute" }
  ({ response := "Please provide your dispute ID (starts with DSP) or reference number:",
     context := [("session_id", sid)] }, update_session st sid session1)

/-- ChatHandler._handle_guidance_request (stateless). -/
def handle_guidance_request : ChatResponse :=
  { response := "Here are some helpful resources for banking disputes:\n\n• **Time is critical**: Contact your bank within 24 hours for unauthorized transactions\n• **Gather evidence**: Save SMS alerts, receipts, and screenshots\n• **File written complaint**: Submit formal dispute letter to your bank\n• **Keep records**: Document all communications and reference numbers\n• **Follow up**: Check status regularly and escalate if needed\n\nWould you like detailed guidance for a specific type of dispute?",
    options := some GUIDANCE_TOPICS }

/-- ChatHandler._handle_emergency_help (stateless). -/
def handle_emergency_help : ChatResponse :=
  let helplines := String.intercalate "\n"
    (BANK_HELPLINES.map (fun p => "**" ++ p.1 ++ "**: " ++ p.2))
  { response := "🚨 **Emergency Actions for Banking Fraud:**\n\n**Immediate Steps:**\n• Block your card/account immediately\n• Report fraud to bank within 2 hours for zero liability\n• File police complaint for criminal activities\n• Change all online banking passwords\n\n**24/7 Bank Helplines:**\n" ++ helplines ++ "\n\n**RBI Banking Ombudsman**: 14448 (Toll-free)\n\nWhich bank do you need help with?",
    options := some BANKS }

/-- Dispute-type matcher of _handle_dispute_type_selection: first enum
member whose lowered value is a substring of the message or contains the
message. -/
def find_dispute_type (message : String) : Option DisputeType :=
  disputeTypeList.find? (fun dt =>
    strContains message (strLower dt.value) || strContains (strLower dt.value) message)

/-- ChatHandler._handle_dispute_type_selection. -/
def handle_dispute_type_selection (message sid : String) (session : Session)
    (st : Db) : ChatResponse × Db :=
  match find_dispute_type message with
  | some dt =>
    let session1 := { session with
      dispute_form := { session.dispute_form with type := some dt },
      step := "bank_selection" }
    ({ response := "You\x27ve selected: **" ++ dt.value ++ "**\n\nWhich bank is involved in this dispute?",
       options := some BANKS,
       context := [("session_id", sid)] }, update_session st sid session1)
  | none =>
    ({ response := "Please select one of the dispute types from the options below:",
       options := some (disputeTypeList.map DisputeType.value),
       context := [("session_id", sid)] }, st)

/-- ChatHandler._handle_bank_selection.  The `if any(...)` has no else
branch: on mismatch the Python function returns None and nothing is
written, rendered here as a none response with the store untouched. -/
def handle_bank_selection (message sid : String) (session : Session)
    (st : Db) : Option ChatResponse × Db :=
  match BANKS.find? (fun bank => strContains message (strLower bank)) with
  | some selected_bank =>
    let session1 := { session with
      dispute_form := { session.dispute_form with bank := some selected_bank },
      step := "amount_input" }
    let helpline := (alistGet BANK_HELPLINES selected_bank).getD "Contact bank directly"
    (some { response := "Bank: **" ++ selected_bank ++ "**\nHelpline: " ++ helpline ++ "\n\nWhat is the disputed amount? Please enter the amount in ₹ (e.g., 5000)",
            context := [("session_id", sid)] }, update_session st sid session1)
  | none => (none, st)

/-- ChatHandler._handle_amount_input. -/
def handle_amount_input (message sid : String) (session : Session) (st : Db) :
    ChatResponse × Db :=
  match extract_amount message with
  | some amount =>
    let session1 := { session with
      dispute_form := { session.dispute_form with amount := some amount },
      step := "date_input" }
    ({ response := "Amount: ₹" ++ formatComma2f amount ++ "\n\nWhen did this transaction occur? Please provide the date (e.g., 2024-01-15 or 15 Jan 2024)",
       context := [("session_id", sid)] }, update_session st sid session1)
  | none =>
    ({ response := "Please enter a valid amount in numbers (e.g., 5000 or 1500.50)",
       context := [("session_id", sid)] }, st)

/-- ChatHandler._handle_date_input. -/
def handle_date_input (message sid : String) (session : Session) (st : Db) :
    ChatResponse × Db :=
  if message.toList.any Char.isDigit && decide (message.toList.length ≥ 8) then
    let session1 := { session with
      dispute_form := { session.dispute_form with date := some message },
      step := "description_input" }
    ({ response := "Date: " ++ message ++ "\n\nPlease provide a brief description of the dispute and what happened:",
       context := [("session_id", sid)] }, update_session st sid session1)
  else
    ({ response := "Please provide a valid date (e.g., 2024-01-15, 15/01/2024, or 15 Jan 2024)",
       context := [("session_id", sid)] }, st)

/-- ChatHandler._handle_description_input: unconditional store and advance. -/
def handle_description_input (message sid : String) (session : Session)
    (st : Db) : ChatResponse × Db :=
  let session1 := { session with
    dispute_form := { session.dispute_form with description := some message },
    step := "card_info" }
  ({ response := "Please provide the last 4 digits of the card involved (e.g., 1234). If not card-related, type \x27N/A\x27:",
     context := [("session_id", sid)] }, update_session st sid session1)

/-- Card field written by _handle_card_info:
`message if message.upper() != "N/A" else "N/A"`. -/
def card_value (message : String) : String :=
  if strUpper message ≠ "N/A" then message else "N/A"

/-- Form after the card write of _handle_card_info. -/
def card_info_form (session : Session) (message : String) : DisputeForm :=
  { session.dispute_form with cardlastfour := some (card_value message) }

/-- Session after the card write of _handle_card_info (the handler mutates
the session dict it shares with the store, so the write is visible in the
store with the step unchanged even though update_session is not called). -/
def card_info_session (session : Session) (message : String) : Session :=
  { session with dispute_form := card_info_form session message }

/-- Success text of _handle_card_info. -/
def dispute_created_text (r : CreateResult) : String :=
  "✅ **Dispute Created Successfully!**\n\n**Dispute ID**: " ++ r.dispute_id ++
  "\n**Priority**: " ++ pyTitle r.priority.value ++
  "\n**Estimated Resolution**: " ++ r.estimated_resolution ++
  "\n\n**Next Steps:**\n1. Block your card immediately if fraud-related\n2. File police complaint for unauthorized transactions\n3. Contact your bank: " ++ r.bank_contact ++
  "\n4. Keep this dispute ID for tracking\n\nYou can track your dispute anytime by providing the Dispute ID."

/-- Generic error response of the card_info except branch. -/
def card_info_error_response : ChatResponse :=
  { response := "I encountered an error creating your dispute. Please try again or contact your bank directly.",
    options := some ["Try Again", "Emergency Help"] }

/-- ChatHandler._handle_card_info: write the card field into the (shared)
session, build the pydantic form, run the dispute creation handoff, and on
success delete the session; on any exception return the generic error
response, leaving the session in the store at its unchanged step. -/
def handle_card_info (env : Env) (message sid : String) (session : Session)
    (st : Db) : ChatResponse × Db :=
  let session1 := card_info_session session message
  let st1 := update_session st sid session1
  match service_create_dispute env session1.dispute_form st1 with
  | Except.ok (r, st2) =>
    ({ response := dispute_created_text r,
       action := some "dispute_created",
       dispute_id := some r.dispute_id }, delete_session st2 sid)
  | Except.error _ => (card_info_error_response, st1)

/-- Status text of _handle_dispute_tracking for a found record. -/
def tracking_text (d : DisputeData) : String :=
  "**Dispute Status**: " ++ underscoreToSpace (pyTitle d.status) ++
  "\n\n**Details:**\n• Type: " ++ d.type.value ++
  "\n• Amount: ₹" ++ formatComma2f d.amount ++
  "\n• Bank: " ++ d.bank ++
  "\n• Created: " ++ splitBeforeT d.createdAt ++
  "\n• Priority: " ++ pyTitle d.priority.value ++
  "\n\n**Timeline:**\n✅ Submitted - " ++ splitBeforeT d.createdAt ++
  "\n🔄 Under Review - Expected in 1-2 days\n⏳ Resolution - Expected in 5-7 business days\n\nYour dispute is being processed. You\x27ll receive updates via SMS/email."

/-- ChatHandler._handle_dispute_tracking: a pure lookup that answers with
status, not-found or format help, and never writes to either store. -/
def handle_dispute_tracking (message : String) (st : Db) : ChatResponse × Db :=
  let dispute_id := strTrim (strUpper message)
  if strStartsWith dispute_id "DSP" && dispute_id.toList.length == 11 then
    match get_dispute st dispute_id with
    | some d => ({ response := tracking_text d }, st)
    | none =>
      ({ response := "Dispute ID not found. Please check the ID and try again, or contact your bank directly." }, st)
  else
    ({ response := "Please provide a valid dispute ID (format: DSP12345678) or reference number." }, st)

/-! ### chat_handler.py: the dispatcher -/

/-- Normalisation applied to every inbound message before routing:
`chat_request.message.lower().strip()`. -/
def normalize_message (raw : String) : String := strTrim (strLower raw)

/-- Python dict merge `{**a, **b}`. -/
def mergeCtx (a b : List (String × String)) : List (String × String) :=
  b.foldl (fun acc p => alistInsert acc p.1 p.2) a

/-- Session id resolution: `chat_request.session_id or str(uuid.uuid4())`
(Python `or` replaces both None and the empty string). -/
def resolve_sid (env : Env) (req : ChatMessage) : String :=
  match req.session_id with
  | some s => if s == "" then env.freshSid else s
  | none => env.freshSid

/-- Get-or-create of the session at the top of process_message. -/
def fetch_session (st : Db) (sid : String) : Session × Db :=
  match get_session st sid with
  | some s => (s, st)
  | none => create_session st sid

/-- Lift a handler result into the Optional-response type of the
dispatcher (every handler except bank_selection always answers). -/
def wrapResp (x : ChatResponse × Db) : Option ChatResponse × Db :=
  (some x.1, x.2)

/-- Routing chain of ChatHandler.process_message once the session id is
resolved and the session fetched: the elif chain of step tests and trigger
substrings, in source order.  `raw` is the unnormalised
chat_request.message, which only the final AI fallback uses. -/
def route_message (env : Env) (raw message sid : String) (session : Session)
    (ctx : List (String × String)) (st0 : Db) : Option ChatResponse × Db :=
  if session.step == "greeting" then
    wrapResp (handle_greeting env message sid ctx st0)
  else if strContains message "report a dispute" || session.step == "main_menu" then
    wrapResp (handle_main_menu env message sid session st0)
  else if strContains message "track existing dispute" then
    wrapResp (handle_track_request sid session st0)
  else if strContains message "get guidance" then
    (some handle_guidance_request, st0)
  else if strContains message "emergency help" then
    (some handle_emergency_help, st0)
  else if session.step == "dispute_type" then
    wrapResp (handle_dispute_type_selection message sid session st0)
  else if session.step == "bank_selection" then
    handle_bank_selection message sid session st0
  else if session.step == "amount_input" then
    wrapResp (handle_amount_input message sid session st0)
  else if session.step == "date_input" then
    wrapResp (handle_date_input message sid session st0)
  else if session.step == "description_input" then
    wrapResp (handle_description_input message sid session st0)
  else if session.step == "card_info" then
    wrapResp (handle_card_info env message sid session st0)
  else if session.step == "track_dispute" then
    wrapResp (handle_dispute_tracking message st0)
  else
    (some { response := env.ai raw ctx,
            context := [("session_id", sid)] }, st0)

/-- ChatHandler.process_message: resolve the session id, normalise the
message, get or create the session, merge the contexts and route.  The
bank_selection branch can produce no response (None in the source). -/
def process_message (env : Env) (req : ChatMessage) (st : Db) :
    Option ChatResponse × Db :=
  let sid := resolve_sid env req
  let sp := fetch_session st sid
  route_message env req.message (normalize_message req.message) sid sp.1
    (mergeCtx sp.1.context req.context) sp.2

/-- Run a sequence of messages for one session id, returning the last
response and the final store state. -/
def run_messages (env : Env) (sid : String) : Db → List String → Option ChatResponse × Db
  | st, [] => (none, st)
  | st, m :: rest =>
    let (r, st1) := process_message env { message := m, session_id := some sid } st
    match rest with
    | [] => (r, st1)
    | _ :: _ => run_messages env sid st1 rest

/-! ### Invariant of the session store -/

/-- The nine step names the dialogue state machine knows. -/
def VALID_STEPS : List String :=
  ["greeting", "main_menu", "dispute_type", "bank_selection", "amount_input",
   "date_input", "description_input", "card_info", "track_dispute"]

/-- A session whose step belongs to the fixed step set. -/
def SessionOK (s : Session) : Prop := s.step ∈ VALID_STEPS

/-- Every session present in the store has a valid step. -/
def DbOK (st : Db) : Prop := ∀ p ∈ st.chat_sessions, SessionOK p.2

/-! ### Concrete scenarios used to evaluate the model -/

/-- Environment with a constant AI oracle, a fixed uuid draw and clock,
and a succeeding record store. -/
def env0 : Env :=
  { ai := fun _ _ => "AI reply",
    uuidHex := "0123456789abcdef0123456789abcdef",
    nowIso := "2024-01-01T00:00:00",
    persistOk := true,
    freshSid := "fresh" }

/-- Environment in which the dispute-record store write fails. -/
def envFail : Env := { env0 with persistOk := false }

/-- Empty store. -/
def db0 : Db := { disputes := [], chat_sessions := [] }

/-- The full message sequence of the end-to-end flow test. -/
def c1_messages : List String :=
  ["hello", "report a dispute", "unauthorized transaction", "hdfc bank",
   "5000", "2024-01-15", "test issue", "1234"]

/-- Store holding one fresh session (at greeting) under id s. -/
def greeting_db : Db :=
  { disputes := [],
    chat_sessions := [("s", { step := "greeting", dispute_form := {}, context := [] })] }

/-- Form as filled right before the description step of the flow. -/
def c8_form : DisputeForm :=
  { type := some DisputeType.UNAUTHORIZED, bank := some "HDFC Bank",
    amount := some 5000, date := some "2024-01-15" }

/-- Store holding one session waiting at description_input. -/
def c8_db : Db :=
  { disputes := [],
    chat_sessions := [("s", { step := "description_input", dispute_form := c8_form, context := [] })] }

/-- Session waiting at card_info with a fully collected form. -/
def card_session : Session :=
  { step := "card_info",
    dispute_form :=
      { type := some DisputeType.UNAUTHORIZED, bank := some "HDFC Bank",
        amount := some 5000, date := some "2024-01-15", description := some "test issue" },
    context := [] }

/-- Store holding only card_session under id s. -/
def card_db : Db := { disputes := [], chat_sessions := [("s", card_session)] }

/-- Session waiting at dispute_type (used to exercise the side branches). -/
def type_session : Session :=
  { step := "dispute_type", dispute_form := {}, context := [] }

/-- Store holding only type_session under id s2. -/
def type_db : Db := { disputes := [], chat_sessions := [("s2", type_session)] }

/-- Fully populated form with an ATM dispute of amount 5000. -/
def atm_form : DisputeForm :=
  { type := some DisputeType.ATM_DISPUTE, bank := some "HDFC Bank",
    amount := some 5000, date := some "2024-01-15",
    description := some "test issue", cardlastfour := some "1234" }

/-! ### Lemmas about the association-list dict model -/

theorem alistGet_insert_self {α : Type} (l : List (String × α)) (k : String) (v : α) :
    alistGet (alistInsert l k v) k = some v := by
  induction l with
  | nil => simp [alistInsert, alistGet]
  | cons p t ih =>
    by_cases h : p.1 = k
    · simp [alistInsert, alistGet, h]
    · simp only [alistInsert, alistGet]
      rw [if_neg (by simpa using h)]
      simpa [alistGet, (by simpa using h : (p.1 == k) = false)] using ih

theorem alistGet_eq_none_of_not_mem {α : Type} (l : List (String × α)) (k : String)
    (h : k ∉ l.map Prod.fst) : alistGet l k = none := by
  induction l with
  | nil => rfl
  | cons p t ih =>
    simp only [List.map_cons, List.mem_cons, not_or] at h
    simp only [alistGet]
    rw [if_neg (by simpa using Ne.symm h.1)]
    exact ih h.2

theorem alistGet_erase_self {α : Type} (l : List (String × α)) (k : String)
    (h : (l.map Prod.fst).Nodup) : alistGet (alistErase l k) k = none := by
  induction l with
  | nil => rfl
  | cons p t ih =>
    simp only [List.map_cons, List.nodup_cons] at h
    by_cases hk : p.1 = k
    · simp only [alistErase]
      rw [if_pos (by simpa using hk)]
      exact hk ▸ alistGet_eq_none_of_not_mem t p.1 h.1
    · simp only [alistErase]
      rw [if_neg (by simpa using hk)]
      simp only [alistGet]
      rw [if_neg (by simpa using hk)]
      exact ih h.2

theorem mem_keys_of_mem_keys_insert {α : Type} (l : List (String × α)) (k a : String)
    (v : α) (h : a ∈ (alistInsert l k v).map Prod.fst) :
    a = k ∨ a ∈ l.map Prod.fst := by
  induction l with
  | nil => simpa [alistInsert] using h
  | cons p t ih =>
    by_cases hk : p.1 = k
    · simp only [alistInsert] at h
      rw [if_pos (by simpa using hk)] at h
      simp only [List.map_cons, List.mem_cons] at h ⊢
      tauto
    · simp only [alistInsert] at h
      rw [if_neg (by simpa using hk)] at h
      simp only [List.map_cons, List.mem_cons] at h ⊢
      rcases h with h | h
      · tauto
      · rcases ih h with h | h <;> tauto

theorem nodup_keys_insert {α : Type} (l : List (String × α)) (k : String) (v : α)
    (h : (l.map Prod.fst).Nodup) : ((alistInsert l k v).map Prod.fst).Nodup := by
  induction l with
  | nil => simp [alistInsert]
  | cons p t ih =>
    simp only [List.map_cons, List.nodup_cons] at h
    by_cases hk : p.1 = k
    · simp only [alistInsert]
      rw [if_pos (by simpa using hk)]
      simp only [List.map_cons, List.nodup_cons]
      exact ⟨hk ▸ h.1, h.2⟩
    · simp only [alistInsert]
      rw [if_neg (by simpa using hk)]
      simp only [List.map_cons, List.nodup_cons]
      refine ⟨fun hmem => ?_, ih h.2⟩
      rcases mem_keys_of_mem_keys_insert t k p.1 v hmem with h1 | h1
      · exact hk h1
      · exact h.1 h1

theorem mem_of_mem_insert {α : Type} (l : List (String × α)) (k : String) (v : α)
    (p : String × α) (h : p ∈ alistInsert l k v) : p = (k, v) ∨ p ∈ l := by
  induction l with
  | nil => simpa [alistInsert] using h
  | cons q t ih =>
    by_cases hk : q.1 = k
    · simp only [alistInsert] at h
      rw [if_pos (by simpa using hk)] at h
      simp only [List.mem_cons] at h ⊢
      tauto
    · simp only [alistInsert] at h
      rw [if_neg (by simpa using hk)] at h
      simp only [List.mem_cons] at h ⊢
      rcases h with h | h
      · tauto
      · rcases ih h with h | h <;> tauto

theorem mem_of_mem_erase {α : Type} (l : List (String × α)) (k : String)
    (p : String × α) (h : p ∈ alistErase l k) : p ∈ l := by
  induction l with
  | nil => simp [alistErase] at h
  | cons q t ih =>
    by_cases hk : q.1 = k
    · simp only [alistErase] at h
      rw [if_pos (by simpa using hk)] at h
      exact List.mem_cons_of_mem _ h
    · simp only [alistErase] at h
      rw [if_neg (by simpa using hk)] at h
      simp only [List.mem_cons] at h ⊢
      rcases h with h | h
      · tauto
      · exact Or.inr (ih h)

theorem alistGet_mem {α : Type} (l : List (String × α)) (k : String) (v : α)
    (h : alistGet l k = some v) : (k, v) ∈ l := by
  induction l with
  | nil => cases h
  | cons p t ih =>
    simp only [alistGet] at h
    by_cases hk : p.1 = k
    · rw [if_pos (by simpa using hk)] at h
      injection h with h
      cases p
      simp_all
    · rw [if_neg (by simpa using hk)] at h
      exact List.mem_cons_of_mem _ (ih h)

/-! ### Frame and invariant lemmas about the handlers -/

theorem wrapResp_snd (x : ChatResponse × Db) : (wrapResp x).2 = x.2 := rfl

theorem handle_greeting_state (env : Env) (m sid : String)
    (ctx : List (String × String)) (st : Db) :
    (handle_greeting env m sid ctx st).2 = st := by
  unfold handle_greeting
  split <;> rfl

theorem DbOK_update_session (st : Db) (sid : String) (s : Session)
    (h : DbOK st) (hs : SessionOK s) : DbOK (update_session st sid s) := by
  intro p hp
  rcases mem_of_mem_insert _ _ _ _ hp with rfl | hp'
  · exact hs
  · exact h p hp'

theorem DbOK_delete_session (st : Db) (sid : String) (h : DbOK st) :
    DbOK (delete_session st sid) :=
  fun p hp => h p (mem_of_mem_erase _ _ _ hp)

theorem DbOK_handle_main_menu (env : Env) (m sid : String) (session : Session)
    (st : Db) (h : DbOK st) : DbOK (handle_main_menu env m sid session st).2 := by
  unfold handle_main_menu
  split
  · exact DbOK_update_session _ _ _ h (by simp [SessionOK, VALID_STEPS])
  · rw [handle_greeting_state]
    exact h

theorem DbOK_handle_track_request (sid : String) (session : Session) (st : Db)
    (h : DbOK st) : DbOK (handle_track_request sid session st).2 :=
  DbOK_update_session _ _ _ h (by simp [SessionOK, VALID_STEPS])

theorem DbOK_handle_dispute_type_selection (m sid : String) (session : Session)
    (st : Db) (h : DbOK st) :
    DbOK (handle_dispute_type_selection m sid session st).2 := by
  unfold handle_dispute_type_selection
  split
  · exact DbOK_update_session _ _ _ h (by simp [SessionOK, VALID_STEPS])
  · exact h

theorem DbOK_handle_bank_selection (m sid : String) (session : Session)
    (st : Db) (h : DbOK st) : DbOK (handle_bank_selection m sid session st).2 := by
  unfold handle_bank_selection
  split
  · exact DbOK_update_session _ _ _ h (by simp [SessionOK, VALID_STEPS])
  · exact h

theorem DbOK_handle_amount_input (m sid : String) (session : Session)
    (st : Db) (h : DbOK st) : DbOK (handle_amount_input m sid session st).2 := by
  unfold handle_amount_input
  split
  · exact DbOK_update_session _ _ _ h (by simp [SessionOK, VALID_STEPS])
  · exact h

theorem DbOK_handle_date_input (m sid : String) (session : Session)
    (st : Db) (h : DbOK st) : DbOK (handle_date_input m sid session st).2 := by
  unfold handle_date_input
  split
  · exact DbOK_update_session _ _ _ h (by simp [SessionOK, VALID_STEPS])
  · exact h

theorem DbOK_handle_description_input (m sid : String) (session : Session)
    (st : Db) (h : DbOK st) : DbOK (handle_description_input m sid session st).2 :=
  DbOK_update_session _ _ _ h (by simp [SessionOK, VALID_STEPS])

/-- The dispute creation handoff touches only the dispute map: on success
the session map of the output state is that of the input state. -/
theorem service_create_dispute_sessions (env : Env) (f : DisputeForm) (st : Db)
    (r : CreateResult) (st2 : Db)
    (h : service_create_dispute env f st = Except.ok (r, st2)) :
    st2.chat_sessions = st.chat_sessions := by
  unfold service_create_dispute at h
  repeat' split at h
  all_goals simp only [Except.ok.injEq, Prod.mk.injEq, reduceCtorEq] at h
  rw [← h.2]
  rfl

theorem DbOK_handle_card_info (env : Env) (m sid : String) (session : Session)
    (st : Db) (h : DbOK st) (hs : SessionOK session) :
    DbOK (handle_card_info env m sid session st).2 := by
  have h1 : DbOK (update_session st sid (card_info_session session m)) :=
    DbOK_update_session _ _ _ h hs
  unfold handle_card_info
  dsimp only
  split
  next r st2 heq =>
    apply DbOK_delete_session
    have h2 := service_create_dispute_sessions _ _ _ _ _ heq
    intro p hp
    exact h1 p (by rw [← h2]; exact hp)
  next =>
    exact h1

theorem handle_dispute_tracking_state (m : String) (st : Db) :
    (handle_dispute_tracking m st).2 = st := by
  unfold handle_dispute_tracking
  dsimp only
  repeat' split
  all_goals rfl

/-- The routing chain preserves the step invariant of the store, given a
session with a valid step. -/
theorem DbOK_route_message (env : Env) (raw message sid : String)
    (session : Session) (ctx : List (String × String)) (st0 : Db)
    (h0 : DbOK st0) (hs : SessionOK session) :
    DbOK (route_message env raw message sid session ctx st0).2 := by
  unfold route_message
  by_cases h1 : (session.step == "greeting") = true
  · rw [if_pos h1]
    show DbOK (handle_greeting env message sid ctx st0).2
    rw [handle_greeting_state]; exact h0
  rw [if_neg h1]
  by_cases h2 : (strContains message "report a dispute" || session.step == "main_menu") = true
  · rw [if_pos h2]; exact DbOK_handle_main_menu _ _ _ _ _ h0
  rw [if_neg h2]
  by_cases h3 : strContains message "track existing dispute" = true
  · rw [if_pos h3]; exact DbOK_handle_track_request _ _ _ h0
  rw [if_neg h3]
  by_cases h4 : strContains message "get guidance" = true
  · rw [if_pos h4]; exact h0
  rw [if_neg h4]
  by_cases h5 : strContains message "emergency help" = true
  · rw [if_pos h5]; exact h0
  rw [if_neg h5]
  by_cases h6 : (session.step == "dispute_type") = true
  · rw [if_pos h6]; exact DbOK_handle_dispute_type_selection _ _ _ _ h0
  rw [if_neg h6]
  by_cases h7 : (session.step == "bank_selection") = true
  · rw [if_pos h7]; exact DbOK_handle_bank_selection _ _ _ _ h0
  rw [if_neg h7]
  by_cases h8 : (session.step == "amount_input") = true
  · rw [if_pos h8]; exact DbOK_handle_amount_input _ _ _ _ h0
  rw [if_neg h8]
  by_cases h9 : (session.step == "date_input") = true
  · rw [if_pos h9]; exact DbOK_handle_date_input _ _ _ _ h0
  rw [if_neg h9]
  by_cases h10 : (session.step == "description_input") = true
  · rw [if_pos h10]; exact DbOK_handle_description_input _ _ _ _ h0
  rw [if_neg h10]
  by_cases h11 : (session.step == "card_info") = true
  · rw [if_pos h11]; exact DbOK_handle_card_info _ _ _ _ _ h0 hs
  rw [if_neg h11]
  by_cases h12 : (session.step == "track_dispute") = true
  · rw [if_pos h12]
    show DbOK (handle_dispute_tracking message st0).2
    rw [handle_dispute_tracking_state]; exact h0
  rw [if_neg h12]
  exact h0

/-- Get-or-create preserves the invariant and hands back a session with a
valid step. -/
theorem DbOK_fetch_session (st : Db) (sid : String) (h : DbOK st) :
    DbOK (fetch_session st sid).2 ∧ SessionOK (fetch_session st sid).1 := by
  unfold fetch_session
  split
  case _ s hget => exact ⟨h, h _ (alistGet_mem _ _ _ hget)⟩
  case _ hget =>
    refine ⟨DbOK_update_session st sid _ h ?_, ?_⟩
    · simp [SessionOK, VALID_STEPS]
    · simp [create_session, SessionOK, VALID_STEPS]

/-! ### Claim theorems -/

/-- C3 counterexample: the claimed rule list gives MEDIUM (rule 4) to a
fully populated ATM-dispute form with amount 5000, but the code gives LOW,
because the amount block ends in an else-LOW and so the type-based MEDIUM
rule is unreachable when the amount is present and nonzero. -/
theorem c3_counterexample :
    determine_priority atm_form = Priority.low ∧ Priority.low ≠ Priority.medium := by
  constructor
  · rfl
  · decide

/-- C3 amended: priority derivation is first-match over (1) fraud type →
HIGH; then, when the amount is present and nonzero, (2) amount > 50000 →
HIGH; (3) amount > 10000 → MEDIUM; (4) otherwise LOW; the type-based
MEDIUM rule for ATM-dispute and failed-transaction fires only when the
amount is absent (or zero).  The claimed vectors unauthorized/100 → HIGH,
other/60000 → HIGH and other/5000 → LOW hold; ATM-dispute/5000 gives LOW,
not MEDIUM. -/
theorem c3_priority_rules :
    (∀ (f : DisputeForm) (a : Rat), f.amount = some a → a ≠ 0 →
      determine_priority f =
        (if typeIn f fraud_types then Priority.high
         else if a > 50000 then Priority.high
         else if a > 10000 then Priority.medium
         else Priority.low)) ∧
    (∀ f : DisputeForm, f.amount = none →
      determine_priority f =
        (if typeIn f fraud_types then Priority.high
         else if typeIn f [DisputeType.ATM_DISPUTE, DisputeType.FAILED_TRANSACTION] then Priority.medium
         else Priority.low)) ∧
    determine_priority { type := some DisputeType.UNAUTHORIZED, amount := some 100 } = Priority.high ∧
    determine_priority { type := some DisputeType.OTHER, amount := some 60000 } = Priority.high ∧
    determine_priority { type := some DisputeType.OTHER, amount := some 5000 } = Priority.low ∧
    determine_priority { type := some DisputeType.ATM_DISPUTE, amount := some 5000 } = Priority.low ∧
    determine_priority { type := some DisputeType.ATM_DISPUTE, amount := none } = Priority.medium := by
  refine ⟨?_, ?_, rfl, rfl, rfl, rfl, rfl⟩
  · intro f a ha hne
    unfold determine_priority
    rw [ha]
    simp [pyFloatTruthy, hne]
  · intro f ha
    unfold determine_priority
    rw [ha]
    simp [pyFloatTruthy]

/-- C3 witness: the amended rule applied at the concrete form
other/60000. -/
theorem c3_witness :
    determine_priority { type := some DisputeType.OTHER, amount := some 60000 } = Priority.high := by
  have h := c3_priority_rules.1 { type := some DisputeType.OTHER, amount := some 60000 }
    60000 rfl (by norm_num)
  simpa using h

/-- C4: at amount_input the first numeric token (commas stripped) is
parsed and stored as the amount with the step advanced to date_input, and
a message with no numeric token is rejected with the re-prompt and the
state unchanged; the extractor maps 5,000 / 5000 / 1500.50 to 5000, 5000
and 1500.5 and rejects abc. -/
theorem c4_amount_input (m sid : String) (session : Session) (st : Db) :
    extract_amount "5,000" = some 5000 ∧
    extract_amount "5000" = some 5000 ∧
    extract_amount "1500.50" = some (1500.5 : Rat) ∧
    extract_amount "abc" = none ∧
    (∀ a : Rat, extract_amount m = some a →
      handle_amount_input m sid session st =
        ({ response := "Amount: ₹" ++ formatComma2f a ++ "\n\nWhen did this transaction occur? Please provide the date (e.g., 2024-01-15 or 15 Jan 2024)",
           context := [("session_id", sid)] },
         update_session st sid { session with
           dispute_form := { session.dispute_form with amount := some a },
           step := "date_input" })) ∧
    (extract_amount m = none →
      handle_amount_input m sid session st =
        ({ response := "Please enter a valid amount in numbers (e.g., 5000 or 1500.50)",
           context := [("session_id", sid)] }, st)) := by
  refine ⟨by decide, by decide, ?_, by decide, ?_, ?_⟩
  · have h1 : extract_amount "1500.50" = some (mkRat 150050 100) := by decide
    have h2 : (mkRat 150050 100 : Rat) = 1500.5 := by norm_num
    rw [h1, h2]
  · intro a ha
    unfold handle_amount_input
    rw [ha]
  · intro ha
    unfold handle_amount_input
    rw [ha]

/-- C4 witness: the theorem applied to the concrete message 5,000. -/
theorem c4_witness :
    handle_amount_input "5,000" "s" { step := "amount_input", dispute_form := {}, context := [] } db0 =
      ({ response := "Amount: ₹" ++ formatComma2f 5000 ++ "\n\nWhen did this transaction occur? Please provide the date (e.g., 2024-01-15 or 15 Jan 2024)",
         context := [("session_id", "s")] },
       update_session db0 "s"
         { step := "date_input", dispute_form := { amount := some 5000 }, context := [] }) := by
  have h := (c4_amount_input "5,000" "s" { step := "amount_input", dispute_form := {}, context := [] } db0).2.2.2.2.1
    5000 (by decide)
  exact h

/-- C7: when no bank name of the fixed list occurs (case-insensitively) in
the message, the bank-selection handler produces no response at all and
leaves the store, hence the session step and dispute_form, unchanged. -/
theorem c7_bank_selection_mismatch (m sid : String) (session : Session) (st : Db)
    (h : BANKS.all (fun bank => !(strContains m (strLower bank))) = true) :
    handle_bank_selection m sid session st = (none, st) := by
  unfold handle_bank_selection
  have hfind : BANKS.find? (fun bank => strContains m (strLower bank)) = none := by
    apply List.find?_eq_none.mpr
    intro bank hbank
    have := List.all_eq_true.mp h bank hbank
    simpa using this
  rw [hfind]

/-- C7 witness: the theorem applied to the message xyz. -/
theorem c7_witness :
    handle_bank_selection "xyz" "s" type_session db0 = (none, db0) :=
  c7_bank_selection_mismatch "xyz" "s" type_session db0 (by decide)

/-- C10: handling a message at track_dispute is read-only on both stores:
for every message and store state the handler returns the state exactly as
given, so the disputes map and the chat-sessions map are unchanged. -/
theorem c10_tracking_readonly (m : String) (st : Db) :
    (handle_dispute_tracking m st).2 = st ∧
    (handle_dispute_tracking m st).2.disputes = st.disputes ∧
    (handle_dispute_tracking m st).2.chat_sessions = st.chat_sessions := by
  refine ⟨handle_dispute_tracking_state m st, ?_, ?_⟩ <;>
    rw [handle_dispute_tracking_state]

/-- C9: session creation initialises a greeting session with empty form
and context, and message processing preserves the invariant that every
stored session has a step in the fixed nine-step set. -/
theorem c9_step_invariant (env : Env) (req : ChatMessage) (st : Db) (h : DbOK st) :
    DbOK (process_message env req st).2 ∧
    ∀ (stx : Db) (sid : String),
      (create_session stx sid).1.step = "greeting" ∧
      (create_session stx sid).1.dispute_form = {} ∧
      (create_session stx sid).1.context = [] := by
  constructor
  · have h2 := DbOK_fetch_session st (resolve_sid env req) h
    exact DbOK_route_message env req.message (normalize_message req.message)
      (resolve_sid env req) (fetch_session st (resolve_sid env req)).1
      (mergeCtx (fetch_session st (resolve_sid env req)).1.context req.context)
      (fetch_session st (resolve_sid env req)).2 h2.1 h2.2
  · intro stx sid
    exact ⟨rfl, rfl, rfl⟩

/-- C9 witness: the invariant theorem applied to a hello message on the
empty store. -/
theorem c9_witness :
    DbOK (process_message env0 { message := "hello", session_id := some "s" } db0).2 :=
  (c9_step_invariant env0 { message := "hello", session_id := some "s" } db0
    (by intro p hp; simp [db0] at hp)).1

/-- C1: evaluation of the claimed end-to-end sequence.  Because the
greeting handler never persists the main_menu transition, the stored step
stays greeting through all eight messages, every later message is routed
back to the greeting handler, no dispute record is ever created, the final
response is an AI fallback with no action and no dispute id, and the
session is still present afterwards. -/
theorem c1_flow_never_creates_dispute :
    run_messages env0 "s" db0 c1_messages =
      (some { response := "AI reply", options := some MAIN_MENU_OPTIONS,
              context := [("session_id", "s")] },
       { disputes := [],
         chat_sessions := [("s", { step := "greeting", dispute_form := {}, context := [] })] }) := by
  decide

/-- C6: a hello message on a fresh session returns the main-menu options
and advertises step main_menu only inside the response context; the stored
session step remains greeting (the greeting handler never calls the
session-store update), and a non-keyword message is delegated to the AI
responder with the menu options still visible. -/
theorem c6_greeting_transition_not_stored :
    (process_message env0 { message := "hello", session_id := some "s" } db0).1 =
      some { response := "Hello! I\x27m your Banking Dispute Assistant. I can help you resolve banking disputes quickly and effectively. How can I assist you today?",
             options := some MAIN_MENU_OPTIONS,
             context := [("session_id", "s"), ("step", "main_menu")] } ∧
    get_session (process_message env0 { message := "hello", session_id := some "s" } db0).2 "s" =
      some { step := "greeting", dispute_form := {}, context := [] } ∧
    (process_message env0 { message := "xyzzy", session_id := some "s" } db0).1 =
      some { response := "AI reply", options := some MAIN_MENU_OPTIONS,
             context := [("session_id", "s")] } := by
  refine ⟨?_, ?_, ?_⟩ <;> decide

/-- C5 counterexample: at a session whose stored step is greeting, a
message containing the trigger phrase does not reach the tracking branch:
the greeting branch fires first, the reply is the AI fallback, and the
stored step remains greeting rather than track_dispute. -/
theorem c5_counterexample :
    (process_message env0 { message := "track existing dispute", session_id := some "s" } greeting_db).1 =
      some { response := "AI reply", options := some MAIN_MENU_OPTIONS,
             context := [("session_id", "s")] } ∧
    get_session (process_message env0 { message := "track existing dispute", session_id := some "s" } greeting_db).2 "s" =
      some { step := "greeting", dispute_form := {}, context := [] } ∧
    ("greeting" : String) ≠ "track_dispute" := by
  refine ⟨?_, ?_, ?_⟩ <;> decide

/-- C5 amended: the trigger phrase overrides the current step only for
sessions whose stored step is neither greeting nor main_menu and whose
message does not also contain the report-a-dispute trigger (both earlier
branches of the elif chain); in that case the step is set to
track_dispute and the dispute-ID prompt is returned. -/
theorem c5_track_trigger (env : Env) (req : ChatMessage) (st : Db) (sid : String)
    (session : Session)
    (hsid : req.session_id = some sid) (hne : sid ≠ "")
    (hget : get_session st sid = some session)
    (hg : session.step ≠ "greeting") (hm : session.step ≠ "main_menu")
    (hrep : strContains (normalize_message req.message) "report a dispute" = false)
    (htrk : strContains (normalize_message req.message) "track existing dispute" = true) :
    process_message env req st =
      (some { response := "Please provide your dispute ID (starts with DSP) or reference number:",
              context := [("session_id", sid)] },
       update_session st sid { session with step := "track_dispute" }) := by
  have hb : (sid == "") = false := beq_eq_false_iff_ne.mpr hne
  have hrs : resolve_sid env req = sid := by
    simp [resolve_sid, hsid, hb]
  have hfs : fetch_session st sid = (session, st) := by
    simp [fetch_session, hget]
  have hpm : process_message env req st =
      route_message env req.message (normalize_message req.message) sid session
        (mergeCtx session.context req.context) st := by
    show route_message env req.message (normalize_message req.message) (resolve_sid env req)
        (fetch_session st (resolve_sid env req)).1
        (mergeCtx (fetch_session st (resolve_sid env req)).1.context req.context)
        (fetch_session st (resolve_sid env req)).2 = _
    rw [hrs, hfs]
  rw [hpm]
  unfold route_message
  have e1 : (session.step == "greeting") = false := beq_eq_false_iff_ne.mpr hg
  have e2 : (session.step == "main_menu") = false := beq_eq_false_iff_ne.mpr hm
  rw [if_neg (by simp [e1]), if_neg (by simp [hrep, e2]), if_pos htrk]
  rfl

/-- C5 witness: the amended theorem applied at a session stored at
dispute_type. -/
theorem c5_witness :
    process_message env0 { message := "track existing dispute", session_id := some "s2" } type_db =
      (some { response := "Please provide your dispute ID (starts with DSP) or reference number:",
              context := [("session_id", "s2")] },
       update_session type_db "s2" { type_session with step := "track_dispute" }) :=
  c5_track_trigger env0 { message := "track existing dispute", session_id := some "s2" }
    type_db "s2" type_session rfl (by decide) (by decide) (by decide) (by decide)
    (by decide) (by decide)

/-- C8 counterexample: the dispatcher lowercases and strips every message
before the description handler stores it, so the raw message ABC is stored
as abc, not character for character as submitted. -/
theorem c8_counterexample :
    get_session (process_message env0 { message := "ABC", session_id := some "s" } c8_db).2 "s" =
      some { step := "card_info",
             dispute_form := { c8_form with description := some "abc" },
             context := [] } ∧
    ("abc" : String) ≠ "ABC" := by
  refine ⟨?_, ?_⟩ <;> decide

/-- C8 amended: at description_input every message that does not contain
one of the four trigger phrases is accepted, the NORMALISED message
(lowercased and stripped by the dispatcher) is stored into
dispute_form.description, and the step advances to card_info. -/
theorem c8_description_stores_normalized (env : Env) (req : ChatMessage) (st : Db)
    (sid : String) (session : Session)
    (hsid : req.session_id = some sid) (hne : sid ≠ "")
    (hget : get_session st sid = some session)
    (hstep : session.step = "description_input")
    (hrep : strContains (normalize_message req.message) "report a dispute" = false)
    (htrk : strContains (normalize_message req.message) "track existing dispute" = false)
    (hgui : strContains (normalize_message req.message) "get guidance" = false)
    (heme : strContains (normalize_message req.message) "emergency help" = false) :
    process_message env req st =
      (some { response := "Please provide the last 4 digits of the card involved (e.g., 1234). If not card-related, type \x27N/A\x27:",
              context := [("session_id", sid)] },
       update_session st sid { session with
         dispute_form := { session.dispute_form with description := some (normalize_message req.message) },
         step := "card_info" }) := by
  have hb : (sid == "") = false := beq_eq_false_iff_ne.mpr hne
  have hrs : resolve_sid env req = sid := by
    simp [resolve_sid, hsid, hb]
  have hfs : fetch_session st sid = (session, st) := by
    simp [fetch_session, hget]
  have hpm : process_message env req st =
      route_message env req.message (normalize_message req.message) sid session
        (mergeCtx session.context req.context) st := by
    show route_message env req.message (normalize_message req.message) (resolve_sid env req)
        (fetch_session st (resolve_sid env req)).1
        (mergeCtx (fetch_session st (resolve_sid env req)).1.context req.context)
        (fetch_session st (resolve_sid env req)).2 = _
    rw [hrs, hfs]
  rw [hpm]
  unfold route_message
  rw [if_neg (by simp [hstep]), if_neg (by simp [hrep, hstep]), if_neg (by simp [htrk]),
    if_neg (by simp [hgui]), if_neg (by simp [heme]), if_neg (by simp [hstep]),
    if_neg (by simp [hstep]), if_neg (by simp [hstep]), if_neg (by simp [hstep]),
    if_pos (by simp [hstep])]
  rfl

/-- C8 witness: the amended theorem applied at a mixed-case message. -/
theorem c8_witness :
    process_message env0 { message := "Some Description", session_id := some "s" } c8_db =
      (some { response := "Please provide the last 4 digits of the card involved (e.g., 1234). If not card-related, type \x27N/A\x27:",
              context := [("session_id", "s")] },
       update_session c8_db "s"
         { step := "card_info",
           dispute_form := { c8_form with description := some "some description" },
           context := [] }) := by
  have h := c8_description_stores_normalized env0
    { message := "Some Description", session_id := some "s" } c8_db "s"
    { step := "description_input", dispute_form := c8_form, context := [] }
    rfl (by decide) (by decide) (by decide) (by decide) (by decide) (by decide) (by decide)
  exact h

/-- C2: at card_info, the session is deleted from the store if and only
if the dispute creation handoff succeeds (the record-store write being its
only fallible step); when the handoff fails the handler answers with the
generic error response carrying the Try Again / Emergency Help options and
the session stays retrievable, not advanced, at step card_info (with only
the card field newly written). -/
theorem c2_card_info_persistence (env : Env) (message sid : String) (session : Session)
    (st : Db) (hstep : session.step = "card_info")
    (hnd : (st.chat_sessions.map Prod.fst).Nodup) :
    (get_session (handle_card_info env message sid session st).2 sid = none ↔
      ∃ x, service_create_dispute env (card_info_session session message).dispute_form
        (update_session st sid (card_info_session session message)) = Except.ok x) ∧
    (∀ e : Unit, service_create_dispute env (card_info_session session message).dispute_form
        (update_session st sid (card_info_session session message)) = Except.error e →
      handle_card_info env message sid session st =
        (card_info_error_response, update_session st sid (card_info_session session message)) ∧
      get_session (handle_card_info env message sid session st).2 sid =
        some (card_info_session session message) ∧
      (card_info_session session message).step = "card_info") := by
  unfold handle_card_info
  dsimp only
  cases hsvc : service_create_dispute env (card_info_session session message).dispute_form
      (update_session st sid (card_info_session session message)) with
  | ok pr =>
    obtain ⟨r, st2⟩ := pr
    have hses := service_create_dispute_sessions _ _ _ _ _ hsvc
    dsimp only
    constructor
    · constructor
      · intro _
        exact ⟨(r, st2), rfl⟩
      · intro _
        show alistGet (alistErase st2.chat_sessions sid) sid = none
        rw [hses]
        exact alistGet_erase_self _ _ (nodup_keys_insert _ _ _ hnd)
    · intro e he
      cases he
  | error u =>
    dsimp only
    constructor
    · constructor
      · intro hnone
        have := alistGet_insert_self st.chat_sessions sid (card_info_session session message)
        rw [show get_session (update_session st sid (card_info_session session message)) sid =
          alistGet (alistInsert st.chat_sessions sid (card_info_session session message)) sid from rfl] at hnone
        rw [this] at hnone
        cases hnone
      · intro ⟨x, hx⟩
        cases hx
    · intro e he
      refine ⟨rfl, ?_, hstep⟩
      exact alistGet_insert_self st.chat_sessions sid (card_info_session session message)

/-- C2 witness: the theorem applied with a failing record store at a fully
collected card_info session. -/
theorem c2_witness :
    get_session (handle_card_info envFail "1234" "s" card_session card_db).2 "s" =
      some (card_info_session card_session "1234") := by
  have h := (c2_card_info_persistence envFail "1234" "s" card_session card_db rfl
    (by decide)).2 () (by rfl)
  exact h.2.1

end BankingDispute
